import Mathlib

/-!
Shallow embedding of the query-mediation core of the repository:
`src/tools/listDatasources/listDatasources.ts` and
`src/tools/queryDatasource/queryDatasource.ts`.

Remote capabilities (REST listing, access checker, filter-value validation,
metadata reading, query execution) live outside these two files; the
orchestrator code only consumes their results, so they are modelled as
explicit inputs to the embedded pipeline functions.  Each pipeline function
is instrumented to also report which observable effects occurred (pages
fetched, query built, remote query invoked), mirroring the control flow of
the TypeScript line by line.
-/

/-- Embeds the owning project reference of a REST datasource
(`datasource.project.id` in listDatasources.ts). -/
structure Project where
  id : String
deriving DecidableEq, Repr

/-- Embeds a datasource item as the two tools consume it: `id` and
`project` are used by `constrainDatasources`; `name` (read as
`d.name ?? ''`) and the optional `luid` are used by the wrapper tool's
resolution code, which treats list items as untyped objects. -/
structure DataSource where
  id : String
  project : Project
  name : Option String
  luid : Option String
deriving DecidableEq, Repr

/-- Embeds `BoundedContext` from config.ts as consumed by
`constrainDatasources`: two independently optional allow-sets, modelled as
lists queried only through membership. -/
structure BoundedContext where
  projectIds : Option (List String)
  datasourceIds : Option (List String)
deriving DecidableEq, Repr

/-- Embeds the `ConstrainedResult` shapes produced by
`constrainDatasources`: the TypeScript discriminants `'empty'` and
`'success'`. -/
inductive ConstrainedResult (α : Type) where
  | empty (message : String)
  | success (result : α)
deriving DecidableEq, Repr

/-- The TypeScript `type` discriminant of a `ConstrainedResult`. -/
def ConstrainedResult.tag {α : Type} : ConstrainedResult α → String
  | .empty _ => "empty"
  | .success _ => "success"

/-- The message returned by `constrainDatasources` when the input list is
itself empty (listDatasources.ts line 97). -/
def genericEmptyMessage : String :=
  "No datasources were found. Either none exist or you do not have permission to view them."

/-- The message returned by `constrainDatasources` when the bounded context
filtered out every datasource (listDatasources.ts lines 114-117, the two
sentences joined with a space). -/
def filteredByPolicyMessage : String :=
  "The set of allowed data sources that can be queried is limited by the server configuration. While data sources were found, they were all filtered out by the server configuration."

/-- The two successive `Array.filter` passes of `constrainDatasources`
(listDatasources.ts lines 102-109): keep a datasource only if its project
is in `projectIds` (when that set is present) and its id is in
`datasourceIds` (when that set is present). -/
def narrowDatasources (datasources : List DataSource) (boundedContext : BoundedContext) :
    List DataSource :=
  let afterProjects :=
    match boundedContext.projectIds with
    | some projectIds => datasources.filter (fun d => projectIds.contains d.project.id)
    | none => datasources
  match boundedContext.datasourceIds with
  | some datasourceIds => afterProjects.filter (fun d => datasourceIds.contains d.id)
  | none => afterProjects

/-- Embeds `constrainDatasources` (listDatasources.ts lines 87-125). -/
def constrainDatasources (datasources : List DataSource) (boundedContext : BoundedContext) :
    ConstrainedResult (List DataSource) :=
  if datasources.length = 0 then
    .empty genericEmptyMessage
  else if (narrowDatasources datasources boundedContext).length = 0 then
    .empty filteredByPolicyMessage
  else
    .success (narrowDatasources datasources boundedContext)

/-- Embeds the ts-results `Result` type (`Ok`/`Err`) used throughout the
TypeScript pipelines. -/
inductive TsResult (α ε : Type) where
  | ok (value : α)
  | err (error : ε)
deriving DecidableEq, Repr

/-- Whether a `TsResult` is an `Err` (ts-results `isErr()`). -/
def TsResult.isErr {α ε : Type} : TsResult α ε → Bool
  | .ok _ => false
  | .err _ => true

/-- Embeds the `TableauError` payload (code plus message) consumed by the
error branches of both tools. -/
structure TableauError where
  errorCode : String
  message : String
deriving DecidableEq, Repr

/-- Embeds one element of the error list produced by
`validateFilterValues`; the orchestrator reads only its `message`. -/
structure ValidationFinding where
  message : String
deriving DecidableEq, Repr

/-- Embeds the error side of `vizqlDataServiceMethods.queryDatasource`:
a `ZodiosError`, the literal `'feature-disabled'` signal, or a remote
`TableauError` payload (queryDatasource.ts lines 128-138). -/
inductive RemoteQueryError where
  | zodiosError (message : String)
  | featureDisabled
  | tableauError (e : TableauError)
deriving DecidableEq, Repr

/-- Embeds the `QueryDatasourceError` union of the structured tool
(queryDatasource.ts lines 32-47). -/
inductive QueryDatasourceError where
  | featureDisabled
  | datasourceNotAllowed (message : String)
  | filterValidation (message : String)
  | tableauError (e : TableauError)
deriving DecidableEq, Repr

/-- The TypeScript `type` discriminant of a `QueryDatasourceError`. -/
def QueryDatasourceError.tag : QueryDatasourceError → String
  | .featureDisabled => "feature-disabled"
  | .datasourceNotAllowed _ => "datasource-not-allowed"
  | .filterValidation _ => "filter-validation"
  | .tableauError _ => "tableau-error"

/-- The error type of the structured tool's callback: a
`QueryDatasourceError` or a raw `ZodiosError` propagated unchanged
(queryDatasource.ts lines 129-131). -/
inductive StructuredCallbackError where
  | queryError (e : QueryDatasourceError)
  | zodios (message : String)
deriving DecidableEq, Repr

/-- Embeds one field specification of a VizQL structured `Query`
(caption, optional aggregation, optional alias). -/
structure QueryField where
  fieldCaption : String
  function : Option String
  fieldAlias : Option String
deriving DecidableEq, Repr

/-- Embeds the parts of a VizQL structured `Query` the two tools build and
forward: the ordered field list and the optional row limit.  Filter
specifications are consumed only by the external `validateFilterValues`
capability and so stay inside that capability in this model. -/
structure Query where
  fields : List QueryField
  limit : Option Nat
deriving DecidableEq, Repr

/-- Embeds the result of `resourceAccessChecker.isDatasourceAllowed`:
an `allowed` flag and the checker's human-readable `message`. -/
structure AccessCheckResult where
  allowed : Bool
  message : String
deriving DecidableEq, Repr

/-- The message join applied to filter-validation findings in both tools:
`errors.map((error) => error.message).join(', ')`. -/
def joinFindingMessages (errors : List ValidationFinding) : String :=
  String.intercalate ", " (errors.map ValidationFinding.message)

/-- The remote-call tail of the structured tool's callback
(queryDatasource.ts lines 127-140): invoke `queryDatasource` and map its
error shapes.  The returned `Bool` records that the remote query
capability was invoked. -/
def runRemoteStructured {α : Type} (queryDatasourceFn : Query → TsResult α RemoteQueryError)
    (query : Query) : TsResult α StructuredCallbackError × Bool :=
  match queryDatasourceFn query with
  | .ok out => (.ok out, true)
  | .err (.zodiosError m) => (.err (.zodios m), true)
  | .err .featureDisabled => (.err (.queryError .featureDisabled), true)
  | .err (.tableauError e) => (.err (.queryError (.tableauError e)), true)

/-- Embeds the callback of the structured-query tool `Tableau-Answer`
(queryDatasource.ts lines 70-143): access gate, then filter-value
validation unless disabled, then the remote query.  The capabilities are
inputs; the returned `Bool` records whether `queryDatasource` was
invoked. -/
def runQueryDatasourceCallback {α : Type}
    (disableQueryDatasourceFilterValidation : Bool)
    (access : AccessCheckResult)
    (validateFilterValuesFn : Query → TsResult Unit (List ValidationFinding))
    (queryDatasourceFn : Query → TsResult α RemoteQueryError)
    (query : Query) : TsResult α StructuredCallbackError × Bool :=
  if !access.allowed then
    (.err (.queryError (.datasourceNotAllowed access.message)), false)
  else if !disableQueryDatasourceFilterValidation then
    match validateFilterValuesFn query with
    | .err errors =>
      (.err (.queryError (.filterValidation (joinFindingMessages errors))), false)
    | .ok _ => runRemoteStructured queryDatasourceFn query
  else
    runRemoteStructured queryDatasourceFn query

/-- Does the character list `hay` start with `needle`?  Helper for the
JavaScript `String.prototype.includes` used in `bestDatasourceMatch`. -/
def startsWithChars : List Char → List Char → Bool
  | _, [] => true
  | [], _ :: _ => false
  | c :: hs, n :: ns => c == n && startsWithChars hs ns

/-- Does `needle` occur as a contiguous run inside `hay`?  Helper for the
JavaScript `String.prototype.includes`. -/
def containsSubChars : List Char → List Char → Bool
  | [], needle => needle.isEmpty
  | c :: t, needle => startsWithChars (c :: t) needle || containsSubChars t needle

/-- Embeds the JavaScript `hay.includes(needle)` substring test. -/
def stringIncludes (hay needle : String) : Bool :=
  containsSubChars hay.data needle.data

/-- Embeds the JavaScript `toLowerCase()` as character-wise lowering. -/
def jsToLowerCase (s : String) : String :=
  ⟨s.data.map Char.toLower⟩

/-- The whitespace characters stripped by the JavaScript `trim()`
(restricted to the ASCII whitespace relevant here). -/
def isJsWhitespace (c : Char) : Bool :=
  c == ' ' || c == '\t' || c == '\n' || c == '\r'

/-- Embeds the JavaScript `trim()`: strip whitespace from both ends. -/
def jsTrim (s : String) : String :=
  ⟨((s.data.dropWhile isJsWhitespace).reverse.dropWhile isJsWhitespace).reverse⟩

/-- The case-folded name the wrapper tool compares against:
`(d.name ?? '').toLowerCase()`. -/
def DataSource.nameLower (d : DataSource) : String :=
  jsToLowerCase (d.name.getD "")

/-- Embeds the `SimpleQueryDatasourceError` union of the wrapper tool
(queryDatasource.ts lines 186-201).  The `tableauError` payload is either
a real `TableauError` object or a `ZodiosError` stuffed into that slot by
the cast on lines 379-382. -/
inductive SimpleErrorPayload where
  | tableauError (e : TableauError)
  | zodiosError (message : String)
deriving DecidableEq, Repr

/-- Embeds the `SimpleQueryDatasourceError` union of the wrapper tool. -/
inductive SimpleQueryDatasourceError where
  | datasourceNotFound (message : String)
  | datasourceNotAllowed (message : String)
  | featureDisabled
  | tableauError (payload : SimpleErrorPayload)
deriving DecidableEq, Repr

/-- The TypeScript `type` discriminant of a `SimpleQueryDatasourceError`. -/
def SimpleQueryDatasourceError.tag : SimpleQueryDatasourceError → String
  | .datasourceNotFound _ => "datasource-not-found"
  | .datasourceNotAllowed _ => "datasource-not-allowed"
  | .featureDisabled => "feature-disabled"
  | .tableauError _ => "tableau-error"

/-- Embeds `bestDatasourceMatch` (queryDatasource.ts lines 423-428):
prefer the first exact case-insensitive name match, otherwise the first
substring match. -/
def bestDatasourceMatch (list : List DataSource) (targetLower : String) : Option DataSource :=
  match list.find? (fun d => d.nameLower == targetLower) with
  | some exact => some exact
  | none => list.find? (fun d => stringIncludes d.nameLower targetLower)

/-- Embeds the page loop of the wrapper tool's datasource resolution
(queryDatasource.ts lines 243-261), instrumented to also return the list
of pages actually fetched (one entry per `listDatasources` call, with the
JavaScript `datasources ?? []` default applied).  A page whose fetch
returned `none` (an absent `datasources` array) or fewer than `pageSize`
items ends the scan. -/
def resolveDatasourcePages (fetch : Nat → Option (List DataSource)) (target : String)
    (pageSize : Nat) : List Nat → Option DataSource × List (List DataSource)
  | [] => (none, [])
  | pageNumber :: rest =>
    let fetched := fetch pageNumber
    let ds := fetched.getD []
    match bestDatasourceMatch ds target with
    | some m => (some m, [ds])
    | none =>
      if fetched.isNone || ds.length < pageSize then
        (none, [ds])
      else
        let next := resolveDatasourcePages fetch target pageSize rest
        (next.1, ds :: next.2)

/-- Embeds step 1 of the wrapper tool's callback (queryDatasource.ts
lines 240-267): normalize the name, scan at most five pages of size 100,
and on failure produce the `datasource-not-found` error echoing the
searched name.  The second component is the list of pages fetched. -/
def resolveDatasource (fetch : Nat → Option (List DataSource)) (datasourceName : String) :
    TsResult DataSource SimpleQueryDatasourceError × List (List DataSource) :=
  let target := jsToLowerCase (jsTrim datasourceName)
  let scan := resolveDatasourcePages fetch target 100 [1, 2, 3, 4, 5]
  match scan.1 with
  | some m => (.ok m, scan.2)
  | none =>
    (.err (.datasourceNotFound ("No datasource matched \"" ++ datasourceName ++ "\".")), scan.2)

/-- Embeds one field descriptor of a VizQL metadata response as
`extractFirstFieldCaption` probes it: `fieldCaption ?? name ?? caption`. -/
structure MetadataField where
  fieldCaption : Option String
  name : Option String
  caption : Option String
deriving DecidableEq, Repr

/-- Embeds the metadata response shapes probed by
`extractFirstFieldCaption` (queryDatasource.ts lines 432-437):
`fields ?? result.fields ?? data.fields ?? metadata.fields`,
each branch optional. -/
structure MetadataValue where
  fields : Option (List MetadataField)
  resultFields : Option (List MetadataField)
  dataFields : Option (List MetadataField)
  metadataFields : Option (List MetadataField)
deriving DecidableEq, Repr

/-- The candidate field list chosen by the `??` chain of
`extractFirstFieldCaption`, with the final `?? []` default. -/
def metadataCandidates (v : MetadataValue) : List MetadataField :=
  (((v.fields.orElse fun _ => v.resultFields).orElse fun _ =>
      v.dataFields).orElse fun _ => v.metadataFields).getD []

/-- Embeds `extractFirstFieldCaption` (queryDatasource.ts lines 430-447);
the whole metadata value is optional (`readMetadataValue?.`), and an
absent or empty candidate list or a first field with no usable caption
falls back to the literal caption. -/
def extractFirstFieldCaption (readMetadataValue : Option MetadataValue) : String :=
  let candidates :=
    match readMetadataValue with
    | none => []
    | some v => metadataCandidates v
  match candidates.head? with
  | none => "Number of Records"
  | some first =>
    ((first.fieldCaption.orElse fun _ => first.name).orElse fun _ =>
        first.caption).getD "Number of Records"

/-- Embeds `buildQueryFromQuestion` (queryDatasource.ts lines 449-466):
a single COUNT aggregate over the chosen caption, aliased
"Total Records", with the row limit applied.  The question is accepted
but not inspected, as in the source. -/
def buildQueryFromQuestion (question : String) (firstFieldCaption : String)
    (rowLimit : Nat) : Query :=
  ⟨[⟨firstFieldCaption, some "COUNT", some "Total Records"⟩], some rowLimit⟩

/-- The observable run of the wrapper tool's callback: its result, the
structured query it built (`none` when the pipeline stopped before query
construction), and whether the remote `queryDatasource` capability was
invoked. -/
structure SimpleRunTrace (α : Type) where
  result : TsResult α SimpleQueryDatasourceError
  builtQuery : Option Query
  queryDatasourceInvoked : Bool
deriving DecidableEq, Repr

/-- The remote-call tail of the wrapper tool's callback (queryDatasource.ts
lines 375-393): invoke `queryDatasource` and map its error shapes into
`SimpleQueryDatasourceError`. -/
def runRemoteSimple {α : Type} (queryDatasourceFn : Query → TsResult α RemoteQueryError)
    (query : Query) : SimpleRunTrace α :=
  match queryDatasourceFn query with
  | .ok out => ⟨.ok out, some query, true⟩
  | .err (.zodiosError m) => ⟨.err (.tableauError (.zodiosError m)), some query, true⟩
  | .err .featureDisabled => ⟨.err .featureDisabled, some query, true⟩
  | .err (.tableauError e) => ⟨.err (.tableauError (.tableauError e)), some query, true⟩

/-- Embeds the callback of the wrapper tool `simple_query_datasource`
(queryDatasource.ts lines 231-395): resolve the name, check the resolved
value has a usable LUID (the JavaScript falsiness test rejects an empty
string), apply the access gate, read metadata (any failure becomes
`feature-disabled`), build the conservative query, validate filter values
unless disabled (a failure becomes a `tableau-error` with code
`validation`), then run the remote query. -/
def runSimpleQueryCallback {α μ : Type}
    (fetch : Nat → Option (List DataSource))
    (datasourceName : String)
    (question : String)
    (limit : Option Nat)
    (access : AccessCheckResult)
    (readMetadataResult : TsResult (Option MetadataValue) μ)
    (disableQueryDatasourceFilterValidation : Bool)
    (validateFilterValuesFn : Query → TsResult Unit (List ValidationFinding))
    (queryDatasourceFn : Query → TsResult α RemoteQueryError) : SimpleRunTrace α :=
  let rowLimit := limit.getD 20
  match (resolveDatasource fetch datasourceName).1 with
  | .err e => ⟨.err e, none, false⟩
  | .ok resolvedValue =>
    let datasourceLuid := resolvedValue.luid.getD resolvedValue.id
    if datasourceLuid.isEmpty then
      ⟨.err (.datasourceNotFound ("Datasource \"" ++ datasourceName ++
          "\" was found but had no LUID/ID in the response.")), none, false⟩
    else if !access.allowed then
      ⟨.err (.datasourceNotAllowed access.message), none, false⟩
    else
      match readMetadataResult with
      | .err _ => ⟨.err .featureDisabled, none, false⟩
      | .ok mdValue =>
        let firstFieldCaption := extractFirstFieldCaption mdValue
        let query := buildQueryFromQuestion question firstFieldCaption rowLimit
        if !disableQueryDatasourceFilterValidation then
          match validateFilterValuesFn query with
          | .err errors =>
            ⟨.err (.tableauError (.tableauError ⟨"validation", joinFindingMessages errors⟩)),
              some query, false⟩
          | .ok _ => runRemoteSimple queryDatasourceFn query
        else
          runRemoteSimple queryDatasourceFn query

/-- A sample datasource used to instantiate general theorems. -/
def sampleDatasource : DataSource := ⟨"ds-1", ⟨"proj-1"⟩, some "Sales", some "luid-1"⟩

/-- A sample datasource whose name matches the search term "Sales"
exactly (case-insensitively). -/
def salesDatasource : DataSource :=
  ⟨"ds-sales", ⟨"proj-1"⟩, some "Sales", some "luid-sales"⟩

/-- A sample datasource whose name contains "sales" only as a
substring. -/
def salesEmeaDatasource : DataSource :=
  ⟨"ds-sales-emea", ⟨"proj-1"⟩, some "Sales (EMEA)", some "luid-sales-emea"⟩

/-- A concrete single-page listing capability: page 1 holds the substring
match before the exact match, later pages are absent. -/
def singlePageFetch : Nat → Option (List DataSource) :=
  fun pageNumber => if pageNumber = 1 then some [salesEmeaDatasource, salesDatasource] else none

/-- A concrete listing capability that returns one short page with no
matching datasource at all. -/
def emptyPageFetch : Nat → Option (List DataSource) :=
  fun _ => some []

/-- A concrete filter-validation capability that always reports two
missing values. -/
def twoFindingsValidator : Query → TsResult Unit (List ValidationFinding) :=
  fun _ => .err [⟨"value A not found"⟩, ⟨"value B not found"⟩]

/-- A concrete filter-validation capability that always passes. -/
def passingValidator : Query → TsResult Unit (List ValidationFinding) :=
  fun _ => .ok ()

/-- A concrete remote query capability that always succeeds. -/
def okRemote : Query → TsResult Unit RemoteQueryError :=
  fun _ => .ok ()

/-- A concrete remote query capability that always signals
`feature-disabled`. -/
def disabledRemote : Query → TsResult Unit RemoteQueryError :=
  fun _ => .err .featureDisabled

/-- The narrowing passes of `constrainDatasources` only ever drop elements:
the narrowed list is a sublist of the input. -/
theorem narrowDatasources_sublist (ds : List DataSource) (bc : BoundedContext) :
    (narrowDatasources ds bc).Sublist ds := by
  obtain ⟨pIds, dIds⟩ := bc
  cases pIds <;> cases dIds <;> simp only [narrowDatasources] <;>
    first
    | exact List.Sublist.refl _
    | exact List.filter_sublist _
    | exact (List.filter_sublist _).trans (List.filter_sublist _)

/-- When the allowed-project set is present but empty, the narrowing keeps
nothing. -/
theorem narrowDatasources_empty_projects (ds : List DataSource)
    (dsIds : Option (List String)) :
    narrowDatasources ds ⟨some [], dsIds⟩ = [] := by
  cases dsIds <;> simp [narrowDatasources]

/-- A non-empty input fully removed by narrowing yields the
policy-filtered empty outcome. -/
theorem constrainDatasources_empty_of_allFiltered (ds : List DataSource)
    (bc : BoundedContext) (hne : ds ≠ []) (hall : narrowDatasources ds bc = []) :
    constrainDatasources ds bc = .empty filteredByPolicyMessage := by
  have hlen : ds.length ≠ 0 := by simpa using hne
  simp [constrainDatasources, hlen, hall]

/-- C1 counterexample: on a concrete non-empty input that the bounded
context filters out entirely, `constrainDatasources` returns the
policy-filtered message but under the same `'empty'` tag that the
empty-input case uses; the claimed distinguished tag does not exist. -/
theorem constrainDatasources_allFiltered_tag_not_distinguished :
    constrainDatasources [sampleDatasource] ⟨some [], none⟩ =
      ConstrainedResult.empty filteredByPolicyMessage ∧
    (constrainDatasources [sampleDatasource] ⟨some [], none⟩).tag = "empty" ∧
    (constrainDatasources [] ⟨some [], none⟩).tag = "empty" ∧
    (constrainDatasources [sampleDatasource] ⟨some [], none⟩).tag =
      (constrainDatasources [] ⟨some [], none⟩).tag := by
  exact ⟨rfl, rfl, rfl, rfl⟩

/-- C1 (amended): for every non-empty input whose narrowing removes every
element, `constrainDatasources` returns an outcome with the same `'empty'`
tag as the empty-input case but with the distinguished
filtered-by-server-configuration message, which differs from the generic
no-results message. -/
theorem constrainDatasources_allFiltered_distinct_message (ds : List DataSource)
    (bc : BoundedContext) (hne : ds ≠ []) (hall : narrowDatasources ds bc = []) :
    constrainDatasources ds bc = .empty filteredByPolicyMessage ∧
    (constrainDatasources ds bc).tag = (constrainDatasources [] bc).tag ∧
    filteredByPolicyMessage ≠ genericEmptyMessage := by
  have hres := constrainDatasources_empty_of_allFiltered ds bc hne hall
  refine ⟨hres, ?_, by decide⟩
  rw [hres]
  rfl

/-- C1 witness: the amended theorem applied at a concrete filtered-out
input. -/
theorem constrainDatasources_allFiltered_distinct_message_witness :
    constrainDatasources [sampleDatasource] ⟨some [], none⟩ =
      .empty filteredByPolicyMessage ∧
    (constrainDatasources [sampleDatasource] ⟨some [], none⟩).tag =
      (constrainDatasources [] ⟨some [], none⟩).tag ∧
    filteredByPolicyMessage ≠ genericEmptyMessage :=
  constrainDatasources_allFiltered_distinct_message [sampleDatasource]
    ⟨some [], none⟩ (by decide) (by decide)

/-- C5: a `BoundedContext` whose `projectIds` set is present but empty
rejects every datasource: for any non-empty input the narrowed list is
empty and `constrainDatasources` returns the policy-filtered outcome. -/
theorem constrainDatasources_emptyAllowedProjects_rejects_all (ds : List DataSource)
    (dsIds : Option (List String)) (hne : ds ≠ []) :
    narrowDatasources ds ⟨some [], dsIds⟩ = [] ∧
    constrainDatasources ds ⟨some [], dsIds⟩ = .empty filteredByPolicyMessage := by
  have hall := narrowDatasources_empty_projects ds dsIds
  exact ⟨hall, constrainDatasources_empty_of_allFiltered ds ⟨some [], dsIds⟩ hne hall⟩

/-- C5 witness: the theorem applied at a concrete non-empty input. -/
theorem constrainDatasources_emptyAllowedProjects_rejects_all_witness :
    narrowDatasources [sampleDatasource] ⟨some [], some ["ds-1"]⟩ = [] ∧
    constrainDatasources [sampleDatasource] ⟨some [], some ["ds-1"]⟩ =
      .empty filteredByPolicyMessage :=
  constrainDatasources_emptyAllowedProjects_rejects_all [sampleDatasource]
    (some ["ds-1"]) (by decide)

/-- C9: every successful `constrainDatasources` outcome carries a sublist
of the input: the surviving datasources are a subset of the input and keep
their relative order (no reordering, no insertion). -/
theorem constrainDatasources_success_sublist (ds : List DataSource)
    (bc : BoundedContext) (l : List DataSource)
    (h : constrainDatasources ds bc = .success l) :
    l.Sublist ds ∧ ∀ d ∈ l, d ∈ ds := by
  have hl : l = narrowDatasources ds bc := by
    by_cases h0 : ds.length = 0
    · simp [constrainDatasources, h0] at h
    · by_cases h1 : (narrowDatasources ds bc).length = 0
      · simp [constrainDatasources, h0, h1] at h
      · simp [constrainDatasources, h0, h1] at h
        exact h.symm
  subst hl
  exact ⟨narrowDatasources_sublist ds bc,
    fun d hd => (narrowDatasources_sublist ds bc).subset hd⟩

/-- C9 witness: the theorem applied at a concrete input with an
unrestricted bounded context. -/
theorem constrainDatasources_success_sublist_witness :
    List.Sublist [sampleDatasource] [sampleDatasource] ∧
    ∀ d ∈ [sampleDatasource], d ∈ [sampleDatasource] :=
  constrainDatasources_success_sublist [sampleDatasource] ⟨none, none⟩
    [sampleDatasource] (by decide)

/-- The remote-call tail of the wrapper tool records the built query. -/
theorem runRemoteSimple_builtQuery {α : Type}
    (remote : Query → TsResult α RemoteQueryError) (q : Query) :
    (runRemoteSimple remote q).builtQuery = some q := by
  cases hq : remote q with
  | ok out => simp [runRemoteSimple, hq]
  | err e => cases e <;> simp [runRemoteSimple, hq]

/-- C7: whenever the access gate rejects the datasource, both tools return
the `datasource-not-allowed` error carrying the checker's message and
never invoke the remote `queryDatasource` capability (the pipeline
terminates at the gate; nothing is retried). -/
theorem accessGate_rejection_early_termination :
    (∀ (α : Type) (disableFV : Bool) (access : AccessCheckResult)
       (fv : Query → TsResult Unit (List ValidationFinding))
       (remote : Query → TsResult α RemoteQueryError) (query : Query),
       access.allowed = false →
       runQueryDatasourceCallback disableFV access fv remote query =
         (.err (.queryError (.datasourceNotAllowed access.message)), false)) ∧
    (∀ (α μ : Type) (fetch : Nat → Option (List DataSource))
       (name question : String) (limit : Option Nat) (access : AccessCheckResult)
       (readMd : TsResult (Option MetadataValue) μ) (disableFV : Bool)
       (fv : Query → TsResult Unit (List ValidationFinding))
       (remote : Query → TsResult α RemoteQueryError) (d : DataSource),
       (resolveDatasource fetch name).1 = .ok d →
       (d.luid.getD d.id).isEmpty = false →
       access.allowed = false →
       (runSimpleQueryCallback fetch name question limit access readMd
           disableFV fv remote).result =
         .err (.datasourceNotAllowed access.message) ∧
       (runSimpleQueryCallback fetch name question limit access readMd
           disableFV fv remote).queryDatasourceInvoked = false) := by
  constructor
  · intro α disableFV access fv remote query haccess
    simp [runQueryDatasourceCallback, haccess]
  · intro α μ fetch name question limit access readMd disableFV fv remote d
      hres hluid haccess
    simp [runSimpleQueryCallback, hres, hluid, haccess]

/-- C7 witness: the theorem applied at concrete inputs with a rejecting
access checker. -/
theorem accessGate_rejection_early_termination_witness :
    runQueryDatasourceCallback false ⟨false, "denied by policy"⟩ passingValidator
        okRemote ⟨[], none⟩ =
      (.err (.queryError (.datasourceNotAllowed "denied by policy")), false) ∧
    (runSimpleQueryCallback singlePageFetch "Sales" "how many" none
        ⟨false, "denied by policy"⟩ (TsResult.ok (ε := Unit) none) false
        passingValidator okRemote).result =
      .err (.datasourceNotAllowed "denied by policy") ∧
    (runSimpleQueryCallback singlePageFetch "Sales" "how many" none
        ⟨false, "denied by policy"⟩ (TsResult.ok (ε := Unit) none) false
        passingValidator okRemote).queryDatasourceInvoked = false := by
  refine ⟨accessGate_rejection_early_termination.1 Unit false
      ⟨false, "denied by policy"⟩ passingValidator okRemote ⟨[], none⟩ rfl, ?_, ?_⟩
  · exact (accessGate_rejection_early_termination.2 Unit Unit singlePageFetch
      "Sales" "how many" none ⟨false, "denied by policy"⟩
      (TsResult.ok none) false passingValidator okRemote salesDatasource
      (by decide) (by decide) rfl).1
  · exact (accessGate_rejection_early_termination.2 Unit Unit singlePageFetch
      "Sales" "how many" none ⟨false, "denied by policy"⟩
      (TsResult.ok none) false passingValidator okRemote salesDatasource
      (by decide) (by decide) rfl).2

/-- C6: when the remote query capability signals `feature-disabled`, the
structured tool's outcome is the `feature-disabled` error, for every
supplied query. -/
theorem queryDatasourceTool_feature_disabled_propagates (α : Type) (disableFV : Bool)
    (access : AccessCheckResult)
    (fv : Query → TsResult Unit (List ValidationFinding))
    (remote : Query → TsResult α RemoteQueryError) (query : Query)
    (haccess : access.allowed = true)
    (hfv : disableFV = true ∨ fv query = .ok ())
    (hremote : remote query = .err .featureDisabled) :
    runQueryDatasourceCallback disableFV access fv remote query =
      (.err (.queryError .featureDisabled), true) := by
  rcases hfv with h | h
  · subst h
    simp [runQueryDatasourceCallback, haccess, runRemoteStructured, hremote]
  · cases disableFV with
    | false => simp [runQueryDatasourceCallback, haccess, h, runRemoteStructured, hremote]
    | true => simp [runQueryDatasourceCallback, haccess, runRemoteStructured, hremote]

/-- C6 witness: the theorem applied at a concrete query with a remote
capability signaling `feature-disabled`. -/
theorem queryDatasourceTool_feature_disabled_propagates_witness :
    runQueryDatasourceCallback false ⟨true, "ok"⟩ passingValidator disabledRemote
        ⟨[⟨"Sales", none, none⟩], some 5⟩ =
      (.err (.queryError .featureDisabled), true) :=
  queryDatasourceTool_feature_disabled_propagates Unit false ⟨true, "ok"⟩
    passingValidator disabledRemote ⟨[⟨"Sales", none, none⟩], some 5⟩
    rfl (Or.inr rfl) rfl

/-- C2 counterexample: in the natural-language tool with filter validation
enabled, a non-empty findings sequence yields an error whose tag is
`tableau-error` (carrying errorCode `validation`), not the claimed
`filter-validation` tag; the remote query is still never invoked. -/
theorem simpleTool_filterValidation_tagged_tableau_error :
    (runSimpleQueryCallback singlePageFetch "Sales" "how many rows" none
        ⟨true, "ok"⟩ (TsResult.ok (ε := Unit) none) false
        twoFindingsValidator okRemote).result =
      .err (.tableauError (.tableauError
        ⟨"validation", "value A not found, value B not found"⟩)) ∧
    (runSimpleQueryCallback singlePageFetch "Sales" "how many rows" none
        ⟨true, "ok"⟩ (TsResult.ok (ε := Unit) none) false
        twoFindingsValidator okRemote).queryDatasourceInvoked = false ∧
    SimpleQueryDatasourceError.tag (.tableauError (.tableauError
        ⟨"validation", "value A not found, value B not found"⟩)) = "tableau-error" ∧
    SimpleQueryDatasourceError.tag (.tableauError (.tableauError
        ⟨"validation", "value A not found, value B not found"⟩)) ≠ "filter-validation" := by
  refine ⟨by decide, by decide, rfl, by decide⟩

/-- C2 (amended): with filter validation enabled, a non-empty findings
sequence always rejects the query before the remote call, with a message
joining all findings; the structured tool tags the error
`filter-validation`, while the natural-language tool tags the same
condition `tableau-error` with errorCode `validation`. -/
theorem filterValidation_rejects_before_execution :
    (∀ (α : Type) (access : AccessCheckResult)
       (fv : Query → TsResult Unit (List ValidationFinding))
       (remote : Query → TsResult α RemoteQueryError) (query : Query)
       (errs : List ValidationFinding),
       access.allowed = true →
       fv query = .err errs →
       runQueryDatasourceCallback false access fv remote query =
         (.err (.queryError (.filterValidation (joinFindingMessages errs))), false) ∧
       QueryDatasourceError.tag (.filterValidation (joinFindingMessages errs)) =
         "filter-validation") ∧
    (∀ (α μ : Type) (fetch : Nat → Option (List DataSource))
       (name question : String) (limit : Option Nat) (access : AccessCheckResult)
       (mdVal : Option MetadataValue)
       (fv : Query → TsResult Unit (List ValidationFinding))
       (remote : Query → TsResult α RemoteQueryError) (d : DataSource)
       (errs : List ValidationFinding),
       (resolveDatasource fetch name).1 = .ok d →
       (d.luid.getD d.id).isEmpty = false →
       access.allowed = true →
       fv (buildQueryFromQuestion question (extractFirstFieldCaption mdVal)
           (limit.getD 20)) = .err errs →
       (runSimpleQueryCallback fetch name question limit access
           (TsResult.ok (ε := μ) mdVal) false fv remote).result =
         .err (.tableauError (.tableauError ⟨"validation", joinFindingMessages errs⟩)) ∧
       (runSimpleQueryCallback fetch name question limit access
           (TsResult.ok (ε := μ) mdVal) false fv remote).queryDatasourceInvoked = false ∧
       SimpleQueryDatasourceError.tag (.tableauError (.tableauError
           ⟨"validation", joinFindingMessages errs⟩)) = "tableau-error") := by
  constructor
  · intro α access fv remote query errs haccess hfv
    exact ⟨by simp [runQueryDatasourceCallback, haccess, hfv], rfl⟩
  · intro α μ fetch name question limit access mdVal fv remote d errs
      hres hluid haccess hfv
    refine ⟨?_, ?_, rfl⟩ <;>
      simp [runSimpleQueryCallback, hres, hluid, haccess, hfv]

/-- C2 witness: both branches of the amended theorem applied at concrete
inputs with a two-findings validator. -/
theorem filterValidation_rejects_before_execution_witness :
    (runQueryDatasourceCallback false ⟨true, "ok"⟩ twoFindingsValidator okRemote
        ⟨[], none⟩ =
      (.err (.queryError (.filterValidation
        (joinFindingMessages [⟨"value A not found"⟩, ⟨"value B not found"⟩]))), false) ∧
     QueryDatasourceError.tag (.filterValidation
        (joinFindingMessages [⟨"value A not found"⟩, ⟨"value B not found"⟩])) =
       "filter-validation") ∧
    ((runSimpleQueryCallback singlePageFetch "Sales" "how many rows" none
        ⟨true, "ok"⟩ (TsResult.ok (ε := Unit) none) false
        twoFindingsValidator okRemote).result =
      .err (.tableauError (.tableauError
        ⟨"validation", joinFindingMessages [⟨"value A not found"⟩, ⟨"value B not found"⟩]⟩)) ∧
     (runSimpleQueryCallback singlePageFetch "Sales" "how many rows" none
        ⟨true, "ok"⟩ (TsResult.ok (ε := Unit) none) false
        twoFindingsValidator okRemote).queryDatasourceInvoked = false ∧
     SimpleQueryDatasourceError.tag (.tableauError (.tableauError
        ⟨"validation", joinFindingMessages [⟨"value A not found"⟩, ⟨"value B not found"⟩]⟩)) =
       "tableau-error") :=
  ⟨filterValidation_rejects_before_execution.1 Unit ⟨true, "ok"⟩
      twoFindingsValidator okRemote ⟨[], none⟩
      [⟨"value A not found"⟩, ⟨"value B not found"⟩] rfl rfl,
   filterValidation_rejects_before_execution.2 Unit Unit singlePageFetch
      "Sales" "how many rows" none ⟨true, "ok"⟩ none
      twoFindingsValidator okRemote salesDatasource
      [⟨"value A not found"⟩, ⟨"value B not found"⟩]
      (by decide) (by decide) rfl rfl⟩

/-- C10: in the natural-language tool, every failure of the readMetadata
capability, whatever the underlying error value, yields the
`feature-disabled` outcome; it is never surfaced as `tableau-error` on
this path, and the remote query is not invoked. -/
theorem simpleTool_metadata_failure_feature_disabled (α μ : Type)
    (fetch : Nat → Option (List DataSource)) (name question : String)
    (limit : Option Nat) (access : AccessCheckResult) (e : μ)
    (disableFV : Bool)
    (fv : Query → TsResult Unit (List ValidationFinding))
    (remote : Query → TsResult α RemoteQueryError) (d : DataSource)
    (hres : (resolveDatasource fetch name).1 = .ok d)
    (hluid : (d.luid.getD d.id).isEmpty = false)
    (haccess : access.allowed = true) :
    (runSimpleQueryCallback fetch name question limit access
        (TsResult.err (α := Option MetadataValue) e) disableFV fv remote).result =
      .err .featureDisabled ∧
    (runSimpleQueryCallback fetch name question limit access
        (TsResult.err (α := Option MetadataValue) e) disableFV fv remote).queryDatasourceInvoked
      = false ∧
    SimpleQueryDatasourceError.tag .featureDisabled = "feature-disabled" := by
  refine ⟨?_, ?_, rfl⟩ <;> simp [runSimpleQueryCallback, hres, hluid, haccess]

/-- C10 witness: the theorem applied at a concrete failing metadata
capability. -/
theorem simpleTool_metadata_failure_feature_disabled_witness :
    (runSimpleQueryCallback singlePageFetch "Sales" "how many" none ⟨true, "ok"⟩
        (TsResult.err (α := Option MetadataValue) "remote exploded") false
        passingValidator okRemote).result = .err .featureDisabled ∧
    (runSimpleQueryCallback singlePageFetch "Sales" "how many" none ⟨true, "ok"⟩
        (TsResult.err (α := Option MetadataValue) "remote exploded") false
        passingValidator okRemote).queryDatasourceInvoked = false ∧
    SimpleQueryDatasourceError.tag .featureDisabled = "feature-disabled" :=
  simpleTool_metadata_failure_feature_disabled Unit String singlePageFetch
    "Sales" "how many" none ⟨true, "ok"⟩ "remote exploded" false
    passingValidator okRemote salesDatasource (by decide) (by decide) rfl

/-- C8: every natural-language invocation that reaches query construction
builds exactly one field, aggregated with COUNT over the caption extracted
from the first reported metadata field, aliased "Total Records", with the
row limit equal to the caller-supplied limit or 20; when metadata is
unavailable or its candidate field list is empty the caption falls back to
the literal "Number of Records". -/
theorem simpleTool_builds_count_query (α μ : Type)
    (fetch : Nat → Option (List DataSource)) (name question : String)
    (limit : Option Nat) (access : AccessCheckResult)
    (mdVal : Option MetadataValue) (disableFV : Bool)
    (fv : Query → TsResult Unit (List ValidationFinding))
    (remote : Query → TsResult α RemoteQueryError) (d : DataSource)
    (hres : (resolveDatasource fetch name).1 = .ok d)
    (hluid : (d.luid.getD d.id).isEmpty = false)
    (haccess : access.allowed = true) :
    (runSimpleQueryCallback fetch name question limit access
        (TsResult.ok (ε := μ) mdVal) disableFV fv remote).builtQuery =
      some ⟨[⟨extractFirstFieldCaption mdVal, some "COUNT", some "Total Records"⟩],
        some (limit.getD 20)⟩ ∧
    (mdVal = none → extractFirstFieldCaption mdVal = "Number of Records") ∧
    (∀ v, mdVal = some v → metadataCandidates v = [] →
      extractFirstFieldCaption mdVal = "Number of Records") := by
  refine ⟨?_, ?_, ?_⟩
  · have hbuilt :
        buildQueryFromQuestion question (extractFirstFieldCaption mdVal) (limit.getD 20) =
          ⟨[⟨extractFirstFieldCaption mdVal, some "COUNT", some "Total Records"⟩],
            some (limit.getD 20)⟩ := rfl
    cases disableFV with
    | true =>
      simp [runSimpleQueryCallback, hres, hluid, haccess, runRemoteSimple_builtQuery, hbuilt]
    | false =>
      simp only [runSimpleQueryCallback, hres, hluid, haccess]
      cases hfv : fv (buildQueryFromQuestion question (extractFirstFieldCaption mdVal)
          (limit.getD 20)) with
      | ok u => simp [hfv, runRemoteSimple_builtQuery, hbuilt]
      | err errors => simp [hfv, hbuilt]
  · intro h
    subst h
    rfl
  · intro v hv hcand
    subst hv
    simp [extractFirstFieldCaption, hcand]

/-- C8 witness: the theorem applied with available metadata whose first
field carries a caption, and no caller-supplied limit. -/
theorem simpleTool_builds_count_query_witness :
    (runSimpleQueryCallback singlePageFetch "Sales" "how many rows" none ⟨true, "ok"⟩
        (TsResult.ok (ε := Unit)
          (some ⟨some [⟨some "Order Date", none, none⟩], none, none, none⟩)) false
        passingValidator okRemote).builtQuery =
      some ⟨[⟨extractFirstFieldCaption
          (some ⟨some [⟨some "Order Date", none, none⟩], none, none, none⟩),
        some "COUNT", some "Total Records"⟩], some 20⟩ ∧
    ((none : Option MetadataValue) = none →
      extractFirstFieldCaption none = "Number of Records") ∧
    (∀ v, (some ⟨some [⟨some "Order Date", none, none⟩], none, none, none⟩ :
        Option MetadataValue) = some v → metadataCandidates v = [] →
      extractFirstFieldCaption
        (some ⟨some [⟨some "Order Date", none, none⟩], none, none, none⟩) =
          "Number of Records") := by
  refine ⟨(simpleTool_builds_count_query Unit Unit singlePageFetch "Sales"
      "how many rows" none ⟨true, "ok"⟩
      (some ⟨some [⟨some "Order Date", none, none⟩], none, none, none⟩) false
      passingValidator okRemote salesDatasource (by decide) (by decide) rfl).1,
    fun _ => rfl,
    (simpleTool_builds_count_query Unit Unit singlePageFetch "Sales"
      "how many rows" none ⟨true, "ok"⟩
      (some ⟨some [⟨some "Order Date", none, none⟩], none, none, none⟩) false
      passingValidator okRemote salesDatasource (by decide) (by decide) rfl).2.2⟩

/-- If some listed datasource matches the target exactly,
`bestDatasourceMatch` returns an exact match. -/
theorem bestDatasourceMatch_of_exact (l : List DataSource) (t : String)
    (h : ∃ d ∈ l, (d.nameLower == t) = true) :
    ∃ m, bestDatasourceMatch l t = some m ∧ (m.nameLower == t) = true := by
  have hsome : (l.find? (fun d => d.nameLower == t)).isSome := by
    rw [List.find?_isSome]
    obtain ⟨d, hd, hpd⟩ := h
    exact ⟨d, hd, hpd⟩
  obtain ⟨m, hm⟩ := Option.isSome_iff_exists.mp hsome
  exact ⟨m, by simp [bestDatasourceMatch, hm], by simpa using List.find?_some hm⟩

/-- With no exact match in the list, `bestDatasourceMatch` degrades to the
first substring match. -/
theorem bestDatasourceMatch_no_exact (l : List DataSource) (t : String)
    (h : l.find? (fun d => d.nameLower == t) = none) :
    bestDatasourceMatch l t = l.find? (fun d => stringIncludes d.nameLower t) := by
  simp [bestDatasourceMatch, h]

/-- A `bestDatasourceMatch` miss means the list holds neither an exact nor
a substring match. -/
theorem bestDatasourceMatch_none (l : List DataSource) (t : String)
    (h : bestDatasourceMatch l t = none) :
    l.find? (fun d => d.nameLower == t) = none ∧
    l.find? (fun d => stringIncludes d.nameLower t) = none := by
  unfold bestDatasourceMatch at h
  cases he : l.find? (fun d => d.nameLower == t) with
  | some e => rw [he] at h; exact absurd h (by simp)
  | none =>
    rw [he] at h
    exact ⟨rfl, by simpa using h⟩

/-- A `bestDatasourceMatch` hit is a member of the list and matches the
target exactly or as a substring. -/
theorem bestDatasourceMatch_spec (l : List DataSource) (t : String) (m : DataSource)
    (h : bestDatasourceMatch l t = some m) :
    m ∈ l ∧ ((m.nameLower == t) || stringIncludes m.nameLower t) = true := by
  unfold bestDatasourceMatch at h
  cases he : l.find? (fun d => d.nameLower == t) with
  | some e =>
    rw [he] at h
    obtain rfl : e = m := by simpa using h
    refine ⟨List.mem_of_find?_eq_some he, ?_⟩
    have := List.find?_some he
    simp only [Bool.or_eq_true]
    exact Or.inl (by simpa using this)
  | none =>
    rw [he] at h
    refine ⟨List.mem_of_find?_eq_some h, ?_⟩
    have := List.find?_some h
    simp only [Bool.or_eq_true]
    exact Or.inr (by simpa using this)

/-- The resolution loop fetches at most one page per page number it was
given. -/
theorem resolveDatasourcePages_length_le (fetch : Nat → Option (List DataSource))
    (t : String) (ps : Nat) (pageNums : List Nat) :
    ((resolveDatasourcePages fetch t ps pageNums).2).length ≤ pageNums.length := by
  induction pageNums with
  | nil => simp [resolveDatasourcePages]
  | cons p rest ih =>
    simp only [resolveDatasourcePages]
    cases hm : bestDatasourceMatch ((fetch p).getD []) t with
    | some m => simp
    | none =>
      by_cases hb : ((fetch p).isNone || decide (((fetch p).getD []).length < ps)) = true
      · simp [hb]
      · simp only [Bool.not_eq_true] at hb
        simp only [hb, Bool.false_eq_true, if_false, List.length_cons]
        exact Nat.succ_le_succ ih

/-- Loop step: a page with a match ends the scan with that match. -/
theorem resolveDatasourcePages_cons_match (fetch : Nat → Option (List DataSource))
    (t : String) (ps p : Nat) (rest : List Nat) (m0 : DataSource)
    (hm : bestDatasourceMatch ((fetch p).getD []) t = some m0) :
    resolveDatasourcePages fetch t ps (p :: rest) = (some m0, [(fetch p).getD []]) := by
  simp [resolveDatasourcePages, hm]

/-- Loop step: an absent page array ends the scan with no match. -/
theorem resolveDatasourcePages_cons_none (fetch : Nat → Option (List DataSource))
    (t : String) (ps p : Nat) (rest : List Nat)
    (hl : fetch p = none) :
    resolveDatasourcePages fetch t ps (p :: rest) = (none, [[]]) := by
  simp [resolveDatasourcePages, hl, bestDatasourceMatch]

/-- Loop step: a matchless page shorter than the page size ends the
scan. -/
theorem resolveDatasourcePages_cons_short (fetch : Nat → Option (List DataSource))
    (t : String) (ps p : Nat) (rest : List Nat) (l : List DataSource)
    (hl : fetch p = some l) (hm : bestDatasourceMatch l t = none)
    (hshort : l.length < ps) :
    resolveDatasourcePages fetch t ps (p :: rest) = (none, [l]) := by
  simp [resolveDatasourcePages, hl, hm, hshort]

/-- Loop step: a matchless full page continues the scan on the remaining
page numbers. -/
theorem resolveDatasourcePages_cons_continue (fetch : Nat → Option (List DataSource))
    (t : String) (ps p : Nat) (rest : List Nat) (l : List DataSource)
    (hl : fetch p = some l) (hm : bestDatasourceMatch l t = none)
    (hlong : ¬ l.length < ps) :
    resolveDatasourcePages fetch t ps (p :: rest) =
      ((resolveDatasourcePages fetch t ps rest).1,
        l :: (resolveDatasourcePages fetch t ps rest).2) := by
  simp [resolveDatasourcePages, hl, hm, hlong]

/-- A datasource returned by the resolution loop lies in one of the
fetched pages and matches the target exactly or as a substring. -/
theorem resolveDatasourcePages_some_spec (fetch : Nat → Option (List DataSource))
    (t : String) (ps : Nat) (pageNums : List Nat) (m : DataSource)
    (h : (resolveDatasourcePages fetch t ps pageNums).1 = some m) :
    m ∈ ((resolveDatasourcePages fetch t ps pageNums).2).flatten ∧
    ((m.nameLower == t) || stringIncludes m.nameLower t) = true := by
  induction pageNums with
  | nil => simp [resolveDatasourcePages] at h
  | cons p rest ih =>
    cases hmm : bestDatasourceMatch ((fetch p).getD []) t with
    | some m0 =>
      rw [resolveDatasourcePages_cons_match fetch t ps p rest m0 hmm] at h ⊢
      obtain rfl : m0 = m := by simpa using h
      have hspec := bestDatasourceMatch_spec _ t m0 hmm
      exact ⟨by simpa using hspec.1, hspec.2⟩
    | none =>
      cases hl : fetch p with
      | none =>
        rw [resolveDatasourcePages_cons_none fetch t ps p rest hl] at h
        simp at h
      | some l =>
        rw [hl, Option.getD_some] at hmm
        by_cases hlen : l.length < ps
        · rw [resolveDatasourcePages_cons_short fetch t ps p rest l hl hmm hlen] at h
          simp at h
        · rw [resolveDatasourcePages_cons_continue fetch t ps p rest l hl hmm hlen] at h ⊢
          obtain ⟨hmem, hmatch⟩ := ih h
          refine ⟨?_, hmatch⟩
          simp only [List.flatten_cons, List.mem_append]
          exact Or.inr hmem

/-- If an exact match occurs anywhere in the pages the loop fetched, the
loop returns an exact match. -/
theorem resolveDatasourcePages_exact (fetch : Nat → Option (List DataSource))
    (t : String) (ps : Nat) (pageNums : List Nat)
    (h : ∃ d ∈ ((resolveDatasourcePages fetch t ps pageNums).2).flatten,
      (d.nameLower == t) = true) :
    ∃ m, (resolveDatasourcePages fetch t ps pageNums).1 = some m ∧
      (m.nameLower == t) = true := by
  induction pageNums with
  | nil => simp [resolveDatasourcePages] at h
  | cons p rest ih =>
    cases hmm : bestDatasourceMatch ((fetch p).getD []) t with
    | some m0 =>
      rw [resolveDatasourcePages_cons_match fetch t ps p rest m0 hmm] at h ⊢
      have hpage : ∃ d ∈ (fetch p).getD [], (d.nameLower == t) = true := by
        simpa using h
      obtain ⟨m1, hm1, hex⟩ := bestDatasourceMatch_of_exact _ t hpage
      rw [hmm] at hm1
      obtain rfl : m0 = m1 := by simpa using hm1
      exact ⟨m0, rfl, hex⟩
    | none =>
      have hnone := bestDatasourceMatch_none _ t hmm
      have hnoex : ∀ d ∈ (fetch p).getD [], ¬ ((d.nameLower == t) = true) :=
        fun d hd => by simpa using List.find?_eq_none.mp hnone.1 d hd
      cases hl : fetch p with
      | none =>
        rw [resolveDatasourcePages_cons_none fetch t ps p rest hl] at h
        simp at h
      | some l =>
        rw [hl, Option.getD_some] at hnoex
        by_cases hlen : l.length < ps
        · rw [hl, Option.getD_some] at hmm
          rw [resolveDatasourcePages_cons_short fetch t ps p rest l hl hmm hlen] at h
          obtain ⟨d, hd, hex⟩ := by simpa using h
          exact absurd (by simp [hex] : (d.nameLower == t) = true) (hnoex d hd)
        · rw [hl, Option.getD_some] at hmm
          rw [resolveDatasourcePages_cons_continue fetch t ps p rest l hl hmm hlen] at h ⊢
          simp only [List.flatten_cons, List.mem_append] at h
          obtain ⟨d, hd, hex⟩ := h
          cases hd with
          | inl hdl => exact absurd hex (hnoex d hdl)
          | inr hdr => exact ih ⟨d, hdr, hex⟩

/-- With no exact match anywhere in the fetched pages, a loop hit is the
first substring match of the fetched pages in scan order. -/
theorem resolveDatasourcePages_substr (fetch : Nat → Option (List DataSource))
    (t : String) (ps : Nat) (pageNums : List Nat)
    (hnoex : ∀ d ∈ ((resolveDatasourcePages fetch t ps pageNums).2).flatten,
      (d.nameLower == t) = false)
    (m : DataSource) (h : (resolveDatasourcePages fetch t ps pageNums).1 = some m) :
    ((resolveDatasourcePages fetch t ps pageNums).2).flatten.find?
      (fun d => stringIncludes d.nameLower t) = some m := by
  induction pageNums with
  | nil => simp [resolveDatasourcePages] at h
  | cons p rest ih =>
    cases hmm : bestDatasourceMatch ((fetch p).getD []) t with
    | some m0 =>
      rw [resolveDatasourcePages_cons_match fetch t ps p rest m0 hmm] at hnoex h ⊢
      obtain rfl : m0 = m := by simpa using h
      have hpagenoex : ∀ d ∈ (fetch p).getD [], (d.nameLower == t) = false := by
        intro d hd
        exact hnoex d (by simpa using hd)
      have hfind : ((fetch p).getD []).find? (fun d => d.nameLower == t) = none :=
        List.find?_eq_none.mpr (fun d hd => by simp [hpagenoex d hd])
      have hsub := bestDatasourceMatch_no_exact _ t hfind
      rw [hmm] at hsub
      simp only [List.flatten_cons, List.flatten_nil, List.append_nil]
      exact hsub.symm
    | none =>
      have hnone := bestDatasourceMatch_none _ t hmm
      cases hl : fetch p with
      | none =>
        rw [resolveDatasourcePages_cons_none fetch t ps p rest hl] at h
        simp at h
      | some l =>
        rw [hl, Option.getD_some] at hmm hnone
        by_cases hlen : l.length < ps
        · rw [resolveDatasourcePages_cons_short fetch t ps p rest l hl hmm hlen] at h
          simp at h
        · rw [resolveDatasourcePages_cons_continue fetch t ps p rest l hl hmm hlen]
            at hnoex h ⊢
          simp only [List.flatten_cons] at hnoex ⊢
          rw [List.find?_append]
          rw [hnone.2]
          simp only [Option.none_or]
          exact ih (fun d hd => hnoex d (by simp [hd])) h

/-- The pages fetched by `resolveDatasource` are those of the underlying
loop. -/
theorem resolveDatasource_pagesFetched (fetch : Nat → Option (List DataSource))
    (name : String) :
    (resolveDatasource fetch name).2 =
      (resolveDatasourcePages fetch (jsToLowerCase (jsTrim name)) 100 [1, 2, 3, 4, 5]).2 := by
  unfold resolveDatasource
  cases h : (resolveDatasourcePages fetch (jsToLowerCase (jsTrim name)) 100 [1, 2, 3, 4, 5]).1 with
  | none => simp [h]
  | some m => simp [h]

/-- `resolveDatasource` succeeds exactly when the loop finds a match. -/
theorem resolveDatasource_ok_iff (fetch : Nat → Option (List DataSource))
    (name : String) (m : DataSource) :
    (resolveDatasource fetch name).1 = .ok m ↔
      (resolveDatasourcePages fetch (jsToLowerCase (jsTrim name)) 100 [1, 2, 3, 4, 5]).1
        = some m := by
  unfold resolveDatasource
  cases h : (resolveDatasourcePages fetch (jsToLowerCase (jsTrim name)) 100 [1, 2, 3, 4, 5]).1 with
  | none => simp [h]
  | some m0 => simp [h]

/-- A matchless scan surfaces as the `datasource-not-found` error echoing
the searched name. -/
theorem resolveDatasource_err_of_none (fetch : Nat → Option (List DataSource))
    (name : String)
    (h : (resolveDatasourcePages fetch (jsToLowerCase (jsTrim name)) 100 [1, 2, 3, 4, 5]).1
      = none) :
    (resolveDatasource fetch name).1 =
      .err (.datasourceNotFound ("No datasource matched \"" ++ name ++ "\".")) := by
  unfold resolveDatasource
  simp [h]

/-- C3: over the pages actually scanned, dataset resolution returns an
exact case-insensitive name match whenever one occurs anywhere in those
pages; only when no exact match exists in the scanned pages does it return
the first datasource (in scan order) whose case-folded name contains the
trimmed, case-folded search term as a substring. -/
theorem resolveDatasource_exact_over_substring (fetch : Nat → Option (List DataSource))
    (name : String) :
    ((∃ d ∈ (resolveDatasource fetch name).2.flatten,
        (d.nameLower == jsToLowerCase (jsTrim name)) = true) →
      ∃ m, (resolveDatasource fetch name).1 = .ok m ∧
        (m.nameLower == jsToLowerCase (jsTrim name)) = true) ∧
    ((∀ d ∈ (resolveDatasource fetch name).2.flatten,
        (d.nameLower == jsToLowerCase (jsTrim name)) = false) →
      ∀ m, (resolveDatasource fetch name).1 = .ok m →
        (resolveDatasource fetch name).2.flatten.find?
          (fun d => stringIncludes d.nameLower (jsToLowerCase (jsTrim name))) = some m) := by
  constructor
  · intro h
    rw [resolveDatasource_pagesFetched] at h
    obtain ⟨m, hm, hex⟩ := resolveDatasourcePages_exact fetch _ 100 [1, 2, 3, 4, 5] h
    exact ⟨m, (resolveDatasource_ok_iff fetch name m).mpr hm, hex⟩
  · intro hnoex m hok
    rw [resolveDatasource_pagesFetched] at hnoex ⊢
    exact resolveDatasourcePages_substr fetch _ 100 [1, 2, 3, 4, 5] hnoex m
      ((resolveDatasource_ok_iff fetch name m).mp hok)

/-- C3 witness: the theorem applied to a page holding both the substring
match "Sales (EMEA)" and the exact match "Sales"; resolution returns the
exact match. -/
theorem resolveDatasource_exact_over_substring_witness :
    ∃ m, (resolveDatasource singlePageFetch "Sales").1 = .ok m ∧
      (m.nameLower == jsToLowerCase (jsTrim "Sales")) = true :=
  (resolveDatasource_exact_over_substring singlePageFetch "Sales").1
    ⟨salesDatasource, by decide, by decide⟩

/-- C4: dataset resolution fetches at most five pages; a first page
shorter than the requested page size (100) with no match stops the scan
after one fetch; and when no scanned datasource matches the term at all,
the outcome is the `datasource-not-found` error whose message contains the
literal searched name (never an empty success). -/
theorem resolveDatasource_page_bound_and_not_found (fetch : Nat → Option (List DataSource))
    (name : String) :
    (resolveDatasource fetch name).2.length ≤ 5 ∧
    (∀ l, fetch 1 = some l → l.length < 100 →
      bestDatasourceMatch l (jsToLowerCase (jsTrim name)) = none →
      (resolveDatasource fetch name).2.length = 1) ∧
    ((∀ d ∈ (resolveDatasource fetch name).2.flatten,
        (d.nameLower == jsToLowerCase (jsTrim name)) = false ∧
        stringIncludes d.nameLower (jsToLowerCase (jsTrim name)) = false) →
      (resolveDatasource fetch name).1 =
        .err (.datasourceNotFound ("No datasource matched \"" ++ name ++ "\".")) ∧
      ∃ a c : List Char,
        ("No datasource matched \"" ++ name ++ "\".").data = a ++ name.data ++ c) := by
  refine ⟨?_, ?_, ?_⟩
  · rw [resolveDatasource_pagesFetched]
    exact resolveDatasourcePages_length_le fetch _ 100 [1, 2, 3, 4, 5]
  · intro l hl hlen hm
    rw [resolveDatasource_pagesFetched]
    rw [resolveDatasourcePages_cons_short fetch _ 100 1 [2, 3, 4, 5] l hl hm hlen]
    rfl
  · intro hnomatch
    have hnone : (resolveDatasourcePages fetch (jsToLowerCase (jsTrim name)) 100
        [1, 2, 3, 4, 5]).1 = none := by
      cases hres : (resolveDatasourcePages fetch (jsToLowerCase (jsTrim name)) 100
          [1, 2, 3, 4, 5]).1 with
      | none => rfl
      | some m =>
        obtain ⟨hmem, hmatch⟩ :=
          resolveDatasourcePages_some_spec fetch _ 100 [1, 2, 3, 4, 5] m hres
        have hfalse := hnomatch m (by rw [resolveDatasource_pagesFetched]; exact hmem)
        rw [hfalse.1, hfalse.2] at hmatch
        exact absurd hmatch (by simp)
    refine ⟨resolveDatasource_err_of_none fetch name hnone,
      "No datasource matched \"".data, "\".".data, ?_⟩
    simp

/-- C4 witness: the theorem applied to a listing whose only page is short
and empty; the scan stops after one fetch and reports the searched name in
the `datasource-not-found` message. -/
theorem resolveDatasource_page_bound_and_not_found_witness :
    (resolveDatasource emptyPageFetch "Missing").2.length = 1 ∧
    (resolveDatasource emptyPageFetch "Missing").1 =
      .err (.datasourceNotFound ("No datasource matched \"" ++ "Missing" ++ "\".")) ∧
    ∃ a c : List Char,
      ("No datasource matched \"" ++ "Missing" ++ "\".").data = a ++ "Missing".data ++ c := by
  refine ⟨(resolveDatasource_page_bound_and_not_found emptyPageFetch "Missing").2.1
      [] rfl (by decide) rfl,
    ((resolveDatasource_page_bound_and_not_found emptyPageFetch "Missing").2.2
      (by decide)).1,
    ((resolveDatasource_page_bound_and_not_found emptyPageFetch "Missing").2.2
      (by decide)).2⟩
